import Mathlib

/-!
Verification development for the MovieNow business-intelligence script
(`visualizations.py`).  The script builds five in-memory tables (one of them
from a seeded pseudorandom normal generator), derives a few descriptive
statistics (min-max normalization, descending ranks, degree-1 least-squares
trend lines, elementwise ratios) and emits five chart files plus console
output.  The shallow embedding below models the tables as structures of
column lists, numeric values as exact rationals, and the observable
behaviour of each report generator as a list of effects (file writes and
printed lines).
-/

/-- Truncation toward zero, the semantics of numpy's `.astype(int)` applied
to a float value (here modelled as an exact rational). -/
def truncToInt (q : ℚ) : ℤ :=
  if 0 ≤ q then q.num / (q.den : ℤ) else -((-q.num) / (q.den : ℤ))

/-- Model of the state of numpy's global random generator: the stream of
standard-normal draws it will produce, and the position of the next draw. -/
structure NpRandom where
  stream : ℕ → ℚ
  pos : ℕ

/-- Model of `np.random.seed(s)`: the pre-existing generator state is
discarded and replaced by the stream determined by the seed alone
(`seedStream` is the seeding semantics of the underlying library: seed to
stream of standard-normal draws). -/
def np_seed (seedStream : ℕ → ℕ → ℚ) (s : ℕ) (_r : NpRandom) : NpRandom :=
  { stream := seedStream s, pos := 0 }

/-- Model of `np.random.normal(loc, scale, n)`: consume the next `n`
standard-normal draws, scaled and shifted, and advance the generator. -/
def np_normal (loc scale : ℚ) (n : ℕ) (r : NpRandom) : List ℚ × NpRandom :=
  ((List.range n).map (fun i => loc + scale * r.stream (r.pos + i)),
   { r with pos := r.pos + n })

/-- Model of `pd.date_range(start, stop, freq=M)` at monthly granularity:
the inclusive list of (year, month) pairs from `(y1, m1)` to `(y2, m2)`. -/
def date_range_months (y1 m1 y2 m2 : ℕ) : List (ℕ × ℕ) :=
  let a := y1 * 12 + (m1 - 1)
  let b := y2 * 12 + (m2 - 1)
  (List.range (b + 1 - a)).map (fun k => ((a + k) / 12, (a + k) % 12 + 1))

structure CountryKpis where
  country : List String
  total_rentals : List ℤ
  avg_rating : List ℚ
  total_revenue : List ℤ

structure GenrePerformance where
  genre : List String
  avg_rating : List ℚ
  total_rentals : List ℤ
  avg_price : List ℚ

structure CustomerSegments where
  segment : List String
  customer_count : List ℤ
  avg_revenue_per_customer : List ℚ

structure MonthlyTrends where
  month : List (ℕ × ℕ)
  rentals : List ℤ
  revenue : List ℤ
  new_customers : List ℤ

structure ActorAnalysis where
  nationality : List String
  male_actors : List ℤ
  female_actors : List ℤ
  avg_rating : List ℚ

structure Tables where
  country_kpis : CountryKpis
  genre_performance : GenrePerformance
  customer_segments : CustomerSegments
  monthly_trends : MonthlyTrends
  actor_analysis : ActorAnalysis

/-- Embedding of `MovieNowVisualizer.setup_sample_data` (lines 54-96).
`seedStream` is the seeding semantics of the underlying random library and
`rng` is the generator state existing when the builder starts (it varies
between runs); the builder reseeds with the fixed seed 42 before drawing
the three `monthly_trends` columns, in the order rentals, revenue,
new_customers. -/
def setup_sample_data (seedStream : ℕ → ℕ → ℚ) (rng : NpRandom) : Tables :=
  let months := date_range_months 2018 1 2019 12
  let rng0 := np_seed seedStream 42 rng
  let rentalsDraw := np_normal 800 150 months.length rng0
  let revenueDraw := np_normal 5600 1050 months.length rentalsDraw.2
  let customersDraw := np_normal 45 12 months.length revenueDraw.2
  { country_kpis :=
      { country := ["USA", "Germany", "UK", "France", "Spain", "Belgium", "Canada"],
        total_rentals := [1250, 890, 720, 650, 580, 320, 420],
        avg_rating := [7.2, 7.8, 7.5, 7.1, 7.9, 8.1, 7.3],
        total_revenue := [8750, 6230, 5040, 4550, 4060, 2240, 2940] },
    genre_performance :=
      { genre := ["Drama", "Comedy", "Action", "Horror", "Romance", "Thriller", "Sci-Fi"],
        avg_rating := [8.1, 7.3, 6.9, 6.2, 7.8, 7.1, 7.5],
        total_rentals := [980, 1200, 1100, 450, 680, 720, 380],
        avg_price := [4.50, 3.80, 4.20, 3.50, 4.10, 4.00, 4.80] },
    customer_segments :=
      { segment := ["High Value (10+ rentals)", "Regular (5-9 rentals)",
                    "Casual (1-4 rentals)", "At Risk (rating < 4)"],
        customer_count := [245, 680, 1420, 180],
        avg_revenue_per_customer := [45.20, 28.50, 12.80, 15.60] },
    monthly_trends :=
      { month := months,
        rentals := rentalsDraw.1.map truncToInt,
        revenue := revenueDraw.1.map truncToInt,
        new_customers := customersDraw.1.map truncToInt },
    actor_analysis :=
      { nationality := ["USA", "UK", "Germany", "France", "Spain", "Italy"],
        male_actors := [45, 32, 18, 15, 12, 8],
        female_actors := [38, 28, 16, 13, 11, 7],
        avg_rating := [7.1, 7.6, 7.8, 7.3, 7.9, 7.4] } }

/-- Modelled external library behaviour: the first 24 standard-normal draws
produced by numpy's MT19937 generator after `np.random.seed(42)` (the draws
consumed by the `rentals` column).  Later draws (consumed by `revenue` and
`new_customers`) are not reproduced by this model and default to 0. -/
def seed42_normals : List ℚ :=
  [0.49671415, -0.1382643, 0.64768854, 1.52302986, -0.23415337, -0.23413696,
   1.57921282, 0.76743473, -0.46947439, 0.54256004, -0.46341769, -0.46572975,
   0.24196227, -1.91328024, -1.72491783, -0.56228753, -1.01283112, 0.31424733,
   -0.90802408, -1.4123037, 1.46564877, -0.2257763, 0.0675282, -1.42474819]

/-- Modelled seeding semantics of the library: only seed 42 (the one seed
the program ever uses) is reproduced. -/
def np_seeded_stream : ℕ → ℕ → ℚ :=
  fun s i => if s = 42 then seed42_normals.getD i 0 else 0

/-- The tables as built by the actual program run (seed 42). -/
def program_tables : Tables :=
  setup_sample_data np_seeded_stream { stream := fun _ => 0, pos := 0 }

/-- Columnwise minimum of a pandas series, 0 for the empty column. -/
def colMin : List ℚ → ℚ
  | [] => 0
  | x :: xs => xs.foldl min x

/-- Columnwise maximum of a pandas series, 0 for the empty column. -/
def colMax : List ℚ → ℚ
  | [] => 0
  | x :: xs => xs.foldl max x

/-- The min-max normalized value of `x` within column `col`, as computed by
`(m - m.min()) / (m.max() - m.min())` on line 137. -/
def normalizedVal (col : List ℚ) (x : ℚ) : ℚ :=
  (x - colMin col) / (colMax col - colMin col)

/-- Min-max normalization of one column (line 137, columnwise). -/
def minmaxNorm (col : List ℚ) : List ℚ := col.map (normalizedVal col)

/-- All values of a column are equal (the degenerate case of min-max
normalization). -/
def allEqual (col : List ℚ) : Prop := ∀ x ∈ col, ∀ y ∈ col, x = y

instance allEqual_dec (col : List ℚ) : Decidable (allEqual col) := by
  unfold allEqual; infer_instance

/-- The three columns of `performance_matrix` (line 136): total_rentals,
avg_rating, total_revenue of the country table. -/
def performance_matrix_cols (t : Tables) : List (List ℚ) :=
  [t.country_kpis.total_rentals.map Int.cast,
   t.country_kpis.avg_rating,
   t.country_kpis.total_revenue.map Int.cast]

/-- `normalized_matrix` of line 137: each column min-max normalized. -/
def normalized_matrix (t : Tables) : List (List ℚ) :=
  (performance_matrix_cols t).map minmaxNorm

/-- Descending average rank of value `x` within column `col`: the model of
`DataFrame.rank(ascending=False)` (line 191, default method `average`):
the count of strictly greater values plus the midpoint of the tied block. -/
def rankOf (col : List ℚ) (x : ℚ) : ℚ :=
  ((col.countP (fun y => decide (x < y)) : ℚ))
    + (((col.countP (fun y => decide (y = x)) : ℚ)) + 1) / 2

/-- Descending ranks of a whole column (line 191, one column of
`genre_metrics.rank(ascending=False)`). -/
def rankings (col : List ℚ) : List ℚ := col.map (rankOf col)

/-- The three columns of `genre_metrics` (line 190): avg_rating,
total_rentals, avg_price of the genre table. -/
def genre_metrics_cols (t : Tables) : List (List ℚ) :=
  [t.genre_performance.avg_rating,
   t.genre_performance.total_rentals.map Int.cast,
   t.genre_performance.avg_price]

/-- The ranking matrix of line 191: descending ranks per column. -/
def rankings_matrix (t : Tables) : List (List ℚ) :=
  (genre_metrics_cols t).map rankings

/-- `revenue_potential` of line 170: elementwise rentals times price. -/
def revenue_potential (t : Tables) : List ℚ :=
  List.zipWith (fun (r : ℤ) (p : ℚ) => (r : ℚ) * p)
    t.genre_performance.total_rentals t.genre_performance.avg_price

/-- `total_revenue_impact` of line 237: elementwise count times revenue. -/
def total_revenue_impact (t : Tables) : List ℚ :=
  List.zipWith (fun (c : ℤ) (v : ℚ) => (c : ℚ) * v)
    t.customer_segments.customer_count t.customer_segments.avg_revenue_per_customer

/-- `revenue_per_rental` of line 301: elementwise revenue over rentals. -/
def revenue_per_rental (mt : MonthlyTrends) : List ℚ :=
  List.zipWith (fun (rev ren : ℤ) => (rev : ℚ) / (ren : ℚ)) mt.revenue mt.rentals

/-- Sum of squares of a series. -/
def Sxx (xs : List ℚ) : ℚ := (xs.map (fun x => x * x)).sum

/-- Sum of elementwise products of two series. -/
def Sxy (xs ys : List ℚ) : ℚ := (List.zipWith (fun x y => x * y) xs ys).sum

/-- Slope of the degree-1 fit, modelling the least-squares contract of
`np.polyfit(xs, ys, 1)` through the normal-equation closed form. -/
def fitSlope (xs ys : List ℚ) : ℚ :=
  ((xs.length : ℚ) * Sxy xs ys - xs.sum * ys.sum)
    / ((xs.length : ℚ) * Sxx xs - xs.sum * xs.sum)

/-- Intercept of the degree-1 fit (normal-equation closed form). -/
def fitIntercept (xs ys : List ℚ) : ℚ :=
  (ys.sum - fitSlope xs ys * xs.sum) / (xs.length : ℚ)

/-- Model of `np.polyfit(xs, ys, 1)` (lines 185 and 280): the pair
(slope, intercept) of the least-squares line. -/
def polyfit1 (xs ys : List ℚ) : ℚ × ℚ := (fitSlope xs ys, fitIntercept xs ys)

/-- Sum of squared residuals of the line `y = a*x + b` against the data. -/
def sse (xs ys : List ℚ) (a b : ℚ) : ℚ :=
  (List.zipWith (fun x y => (y - (a * x + b)) ^ 2) xs ys).sum

/-- `x_numeric` of line 279: the evenly spaced index 0..N-1 over the rows
of the monthly table. -/
def x_numeric (t : Tables) : List ℚ :=
  (List.range t.monthly_trends.month.length).map (fun i => (i : ℚ))

/-- The trend-line coefficients of line 280 (temporal analysis):
`np.polyfit(x_numeric, rentals, 1)`. -/
def temporal_trend_z (t : Tables) : ℚ × ℚ :=
  polyfit1 (x_numeric t) (t.monthly_trends.rentals.map Int.cast)

/-- The plotted temporal trend values `p(x_numeric)` of line 282. -/
def temporal_trend_y (t : Tables) : List ℚ :=
  (x_numeric t).map (fun x => (temporal_trend_z t).1 * x + (temporal_trend_z t).2)

/-- The x-series of the genre trend line of line 185: the avg_price
column (not an index). -/
def genre_trend_x (t : Tables) : List ℚ := t.genre_performance.avg_price

/-- The trend-line coefficients of line 185 (genre analysis):
`np.polyfit(avg_price, avg_rating, 1)`. -/
def genre_trend_z (t : Tables) : ℚ × ℚ :=
  polyfit1 (genre_trend_x t) t.genre_performance.avg_rating

/-- The plotted genre trend values `p(avg_price)` of line 187. -/
def genre_trend_y (t : Tables) : List ℚ :=
  (genre_trend_x t).map (fun x => (genre_trend_z t).1 * x + (genre_trend_z t).2)

/-- A list of rationals is evenly spaced when every consecutive difference
equals the first one. -/
def evenlySpaced (xs : List ℚ) : Prop :=
  ∀ i < xs.length - 1,
    xs.getD (i + 1) 0 - xs.getD i 0 = xs.getD 1 0 - xs.getD 0 0

instance evenlySpaced_dec (xs : List ℚ) : Decidable (evenlySpaced xs) := by
  unfold evenlySpaced; infer_instance

/-- Observable effects of the program: printed console lines, chart files
written (with the numeric series they render), the interactive HTML file,
figure display, and output-directory creation.  Chart layout, colors and
labels are direct library invocations and are out of scope. -/
inductive Effect where
  | eprint (s : String)
  | render (path : String) (data : List (List ℚ))
  | writeHtml (path : String) (data : List (List ℚ))
  | showFig
  | mkdirIfAbsent (path : String)
deriving DecidableEq

/-- The file paths written by a list of effects, in order. -/
def effectFile : Effect → Option String
  | Effect.render p _ => some p
  | Effect.writeHtml p _ => some p
  | _ => none

/-- All output files produced by a trace. -/
def outputFiles (l : List Effect) : List String := l.filterMap effectFile

/-- Whether an effect is a printed line. -/
def isEprint : Effect → Bool
  | Effect.eprint _ => true
  | _ => false

/-- Embedding of `create_country_performance_dashboard` (lines 98-148):
reads the country table, renders four panels (revenue bars, rating bars,
rentals-revenue scatter, normalized heatmap) and saves one PNG. -/
def create_country_performance_dashboard (t : Tables) : Tables × List Effect :=
  (t, [Effect.render "visualizations/country_performance_dashboard.png"
         ([t.country_kpis.total_revenue.map Int.cast,
           t.country_kpis.avg_rating,
           t.country_kpis.total_rentals.map Int.cast,
           t.country_kpis.total_revenue.map Int.cast] ++ normalized_matrix t),
       Effect.showFig])

/-- Embedding of `create_genre_analysis` (lines 150-207): reads the genre
table, renders the bubble chart, revenue potential, price-rating scatter
with its trend line, and the ranking heatmap, and saves one PNG. -/
def create_genre_analysis (t : Tables) : Tables × List Effect :=
  (t, [Effect.render "visualizations/genre_analysis.png"
         ([t.genre_performance.avg_rating,
           t.genre_performance.total_rentals.map Int.cast,
           t.genre_performance.avg_price.map (fun p => p * 50),
           revenue_potential t,
           t.genre_performance.avg_price,
           genre_trend_y t] ++ rankings_matrix t),
       Effect.showFig])

/-- Embedding of `create_customer_segmentation_viz` (lines 209-263): reads
the segments table and saves one PNG. -/
def create_customer_segmentation_viz (t : Tables) : Tables × List Effect :=
  (t, [Effect.render "visualizations/customer_segmentation.png"
         [t.customer_segments.customer_count.map Int.cast,
          t.customer_segments.avg_revenue_per_customer,
          total_revenue_impact t],
       Effect.showFig])

/-- Embedding of `create_temporal_analysis` (lines 265-311): reads the
monthly table, renders rentals with trend line, revenue, new customers and
the revenue-per-rental ratio, and saves one PNG. -/
def create_temporal_analysis (t : Tables) : Tables × List Effect :=
  (t, [Effect.render "visualizations/temporal_analysis.png"
         [t.monthly_trends.rentals.map Int.cast,
          temporal_trend_y t,
          t.monthly_trends.revenue.map Int.cast,
          t.monthly_trends.new_customers.map Int.cast,
          revenue_per_rental t.monthly_trends],
       Effect.showFig])

/-- Embedding of `create_interactive_dashboard` (lines 313-375): reads the
country, genre, segments and monthly tables, writes the HTML dashboard and
prints a confirmation line. -/
def create_interactive_dashboard (t : Tables) : Tables × List Effect :=
  (t, [Effect.writeHtml "visualizations/interactive_dashboard.html"
         [t.country_kpis.total_revenue.map Int.cast,
          t.genre_performance.avg_rating,
          t.customer_segments.customer_count.map Int.cast,
          t.monthly_trends.rentals.map Int.cast,
          t.monthly_trends.revenue.map Int.cast],
       Effect.eprint "Interactive dashboard saved as 'visualizations/interactive_dashboard.html'"])

/-- Embedding of `generate_all_visualizations` (lines 377-402): runs the
five generators in order, interleaved with progress prints, then prints
the closing status line and the file listing. -/
def generate_all_visualizations (t : Tables) : Tables × List Effect :=
  let r1 := create_country_performance_dashboard t
  let r2 := create_genre_analysis r1.1
  let r3 := create_customer_segmentation_viz r2.1
  let r4 := create_temporal_analysis r3.1
  let r5 := create_interactive_dashboard r4.1
  (r5.1,
   [Effect.eprint "Generating MovieNow Business Intelligence Visualizations...",
    Effect.eprint "1. Creating Country Performance Dashboard..."]
   ++ r1.2
   ++ [Effect.eprint "2. Creating Genre Analysis..."]
   ++ r2.2
   ++ [Effect.eprint "3. Creating Customer Segmentation..."]
   ++ r3.2
   ++ [Effect.eprint "4. Creating Temporal Analysis..."]
   ++ r4.2
   ++ [Effect.eprint "5. Creating Interactive Dashboard..."]
   ++ r5.2
   ++ [Effect.eprint "\nAll visualizations generated successfully!",
       Effect.eprint "Files saved in 'visualizations/' directory:",
       Effect.eprint "- country_performance_dashboard.png",
       Effect.eprint "- genre_analysis.png",
       Effect.eprint "- customer_segmentation.png",
       Effect.eprint "- temporal_analysis.png",
       Effect.eprint "- interactive_dashboard.html"])

/-- A bar of 50 equals signs, `"=" * 50` in the source. -/
def bar50 : String := String.mk (List.replicate 50 (Char.ofNat 61))

/-- The style-selection fallback performed at import time (lines 23-34):
a console note is printed only when neither seaborn style is available. -/
def style_fallback_prints (styles : List String) : List Effect :=
  if "seaborn-v0_8" ∈ styles then []
  else if "seaborn" ∈ styles then []
  else [Effect.eprint "Note: Using default matplotlib style. For better visuals, consider updating matplotlib/seaborn."]

/-- Embedding of `check_available_styles` (lines 405-409). -/
def check_available_styles (styles : List String) : List Effect :=
  Effect.eprint "Available matplotlib styles:"
    :: styles.map (fun s => Effect.eprint ("  - " ++ s))

/-- All console output produced before the visualizer is constructed (the
import-time style fallback plus the style listing of `__main__`); it
depends only on the set of styles available in the environment. -/
def styleHeader (styles : List String) : List Effect :=
  style_fallback_prints styles
    ++ [Effect.eprint "Checking matplotlib configuration..."]
    ++ check_available_styles styles
    ++ [Effect.eprint ("\n" ++ bar50)]

/-- Embedding of the `__main__` block (lines 411-429): style check, the
visualizer construction (dataset builder plus output-directory creation),
all visualizations, and the summary block. -/
def mainRun (styles : List String) (seedStream : ℕ → ℕ → ℚ) (rng : NpRandom) :
    List Effect :=
  styleHeader styles
    ++ (let visualizer := setup_sample_data seedStream rng
        Effect.mkdirIfAbsent "visualizations"
          :: ((generate_all_visualizations visualizer).2
             ++ [Effect.eprint ("\n" ++ bar50),
                 Effect.eprint "MOVIENOW BUSINESS INTELLIGENCE - SUMMARY STATS",
                 Effect.eprint bar50,
                 Effect.eprint ("Countries Analyzed: "
                   ++ toString visualizer.country_kpis.country.length),
                 Effect.eprint ("Genres Analyzed: "
                   ++ toString visualizer.genre_performance.genre.length),
                 Effect.eprint ("Customer Segments: "
                   ++ toString visualizer.customer_segments.segment.length),
                 Effect.eprint ("Time Period: "
                   ++ toString visualizer.monthly_trends.month.length ++ " months"),
                 Effect.eprint bar50]))

/-- The five documented output paths, in the order they are written. -/
def fivePaths : List String :=
  ["visualizations/country_performance_dashboard.png",
   "visualizations/genre_analysis.png",
   "visualizations/customer_segmentation.png",
   "visualizations/temporal_analysis.png",
   "visualizations/interactive_dashboard.html"]

/-- The part of a run's trace printed after the closing status line
`"All visualizations generated successfully!"`: the file listing and the
summary block, only prints, no further file writes. -/
def after_success_trace : List Effect :=
  [Effect.eprint "Files saved in 'visualizations/' directory:",
   Effect.eprint "- country_performance_dashboard.png",
   Effect.eprint "- genre_analysis.png",
   Effect.eprint "- customer_segmentation.png",
   Effect.eprint "- temporal_analysis.png",
   Effect.eprint "- interactive_dashboard.html",
   Effect.eprint ("\n" ++ bar50),
   Effect.eprint "MOVIENOW BUSINESS INTELLIGENCE - SUMMARY STATS",
   Effect.eprint bar50,
   Effect.eprint "Countries Analyzed: 7",
   Effect.eprint "Genres Analyzed: 7",
   Effect.eprint "Customer Segments: 4",
   Effect.eprint "Time Period: 24 months",
   Effect.eprint bar50]

/-- The part of a run's trace between the directory creation and the
closing status line: the progress prints and the five generators' output
(on the tables built at startup). -/
def pre_success_trace (t : Tables) : List Effect :=
  [Effect.eprint "Generating MovieNow Business Intelligence Visualizations...",
   Effect.eprint "1. Creating Country Performance Dashboard..."]
  ++ (create_country_performance_dashboard t).2
  ++ [Effect.eprint "2. Creating Genre Analysis..."]
  ++ (create_genre_analysis t).2
  ++ [Effect.eprint "3. Creating Customer Segmentation..."]
  ++ (create_customer_segmentation_viz t).2
  ++ [Effect.eprint "4. Creating Temporal Analysis..."]
  ++ (create_temporal_analysis t).2
  ++ [Effect.eprint "5. Creating Interactive Dashboard..."]
  ++ (create_interactive_dashboard t).2

theorem truncToInt_of_nonneg (q : ℚ) (h : 0 ≤ q) : truncToInt q = ⌊q⌋ := by
  rw [truncToInt, if_pos h, Rat.floor_def]

theorem foldl_min_le_init (xs : List ℚ) : ∀ a : ℚ, xs.foldl min a ≤ a := by
  induction xs with
  | nil => intro a; simp
  | cons x xs ih =>
    intro a
    calc (x :: xs).foldl min a = xs.foldl min (min a x) := rfl
    _ ≤ min a x := ih (min a x)
    _ ≤ a := min_le_left a x

theorem foldl_min_le_of_mem (xs : List ℚ) :
    ∀ a x, x ∈ xs → xs.foldl min a ≤ x := by
  induction xs with
  | nil => intro a x hx; cases hx
  | cons y ys ih =>
    intro a x hx
    rcases List.mem_cons.1 hx with h | h
    · rw [h]
      exact le_trans (foldl_min_le_init ys (min a y)) (min_le_right a y)
    · exact ih (min a y) x h

theorem foldl_min_mem (xs : List ℚ) :
    ∀ a, xs.foldl min a = a ∨ xs.foldl min a ∈ xs := by
  induction xs with
  | nil => intro a; left; rfl
  | cons y ys ih =>
    intro a
    rcases ih (min a y) with h | h
    · rcases min_choice a y with hm | hm
      · left; rw [List.foldl_cons, h, hm]
      · right; rw [List.foldl_cons, h, hm]; exact List.mem_cons_self y ys
    · right; exact List.mem_cons_of_mem y h

theorem le_foldl_max_init (xs : List ℚ) : ∀ a : ℚ, a ≤ xs.foldl max a := by
  induction xs with
  | nil => intro a; simp
  | cons x xs ih =>
    intro a
    calc a ≤ max a x := le_max_left a x
    _ ≤ xs.foldl max (max a x) := ih (max a x)
    _ = (x :: xs).foldl max a := rfl

theorem le_foldl_max_of_mem (xs : List ℚ) :
    ∀ a x, x ∈ xs → x ≤ xs.foldl max a := by
  induction xs with
  | nil => intro a x hx; cases hx
  | cons y ys ih =>
    intro a x hx
    rcases List.mem_cons.1 hx with h | h
    · rw [h]
      exact le_trans (le_max_right a y) (le_foldl_max_init ys (max a y))
    · exact ih (max a y) x h

theorem foldl_max_mem (xs : List ℚ) :
    ∀ a, xs.foldl max a = a ∨ xs.foldl max a ∈ xs := by
  induction xs with
  | nil => intro a; left; rfl
  | cons y ys ih =>
    intro a
    rcases ih (max a y) with h | h
    · rcases max_choice a y with hm | hm
      · left; rw [List.foldl_cons, h, hm]
      · right; rw [List.foldl_cons, h, hm]; exact List.mem_cons_self y ys
    · right; exact List.mem_cons_of_mem y h

theorem colMin_le_of_mem (col : List ℚ) (x : ℚ) (hx : x ∈ col) :
    colMin col ≤ x := by
  cases col with
  | nil => cases hx
  | cons y ys =>
    rcases List.mem_cons.1 hx with h | h
    · subst h; exact foldl_min_le_init ys x
    · exact foldl_min_le_of_mem ys y x h

theorem le_colMax_of_mem (col : List ℚ) (x : ℚ) (hx : x ∈ col) :
    x ≤ colMax col := by
  cases col with
  | nil => cases hx
  | cons y ys =>
    rcases List.mem_cons.1 hx with h | h
    · subst h; exact le_foldl_max_init ys x
    · exact le_foldl_max_of_mem ys y x h

theorem colMin_mem (col : List ℚ) (h : col ≠ []) : colMin col ∈ col := by
  cases col with
  | nil => exact absurd rfl h
  | cons y ys =>
    rcases foldl_min_mem ys y with hm | hm
    · rw [colMin, hm]; exact List.mem_cons_self y ys
    · exact List.mem_cons_of_mem y hm

theorem colMax_mem (col : List ℚ) (h : col ≠ []) : colMax col ∈ col := by
  cases col with
  | nil => exact absurd rfl h
  | cons y ys =>
    rcases foldl_max_mem ys y with hm | hm
    · rw [colMax, hm]; exact List.mem_cons_self y ys
    · exact List.mem_cons_of_mem y hm

/-- The squared-deviation term of the least-squares decomposition. -/
def dsq (xs : List ℚ) (s t a b : ℚ) : ℚ :=
  (xs.map (fun x => ((s - a) * x + (t - b)) ^ 2)).sum

/-- Sum of residuals of the line `y = s*x + t`. -/
def residSum (xs ys : List ℚ) (s t : ℚ) : ℚ :=
  (List.zipWith (fun x y => y - (s * x + t)) xs ys).sum

/-- Sum of x-weighted residuals of the line `y = s*x + t`. -/
def xResidSum (xs ys : List ℚ) (s t : ℚ) : ℚ :=
  (List.zipWith (fun x y => x * (y - (s * x + t))) xs ys).sum

theorem dsq_nonneg (xs : List ℚ) (s t a b : ℚ) : 0 ≤ dsq xs s t a b := by
  induction xs with
  | nil => simp [dsq]
  | cons x xs ih =>
    have hx : (0 : ℚ) ≤ ((s - a) * x + (t - b)) ^ 2 := sq_nonneg _
    simp only [dsq, List.map_cons, List.sum_cons] at ih ⊢
    linarith

theorem sse_decomp (xs : List ℚ) :
    ∀ ys : List ℚ, xs.length = ys.length → ∀ s t a b : ℚ,
      sse xs ys a b = sse xs ys s t + dsq xs s t a b
        + 2 * ((s - a) * xResidSum xs ys s t + (t - b) * residSum xs ys s t) := by
  induction xs with
  | nil =>
    intro ys _ s t a b
    simp [sse, dsq, residSum, xResidSum]
  | cons x xs ih =>
    intro ys hlen s t a b
    cases ys with
    | nil => simp at hlen
    | cons y ys =>
      have hlen' : xs.length = ys.length := by simpa using hlen
      have h := ih ys hlen' s t a b
      simp only [sse, dsq, residSum, xResidSum, List.zipWith_cons_cons,
        List.map_cons, List.sum_cons] at h ⊢
      linear_combination h

theorem residSum_formula (xs : List ℚ) :
    ∀ ys : List ℚ, xs.length = ys.length → ∀ s t : ℚ,
      residSum xs ys s t = ys.sum - s * xs.sum - (xs.length : ℚ) * t := by
  induction xs with
  | nil =>
    intro ys hlen s t
    cases ys with
    | nil => simp [residSum]
    | cons y ys => simp at hlen
  | cons x xs ih =>
    intro ys hlen s t
    cases ys with
    | nil => simp at hlen
    | cons y ys =>
      have hlen' : xs.length = ys.length := by simpa using hlen
      have h := ih ys hlen' s t
      simp only [residSum, List.zipWith_cons_cons, List.sum_cons,
        List.length_cons] at h ⊢
      push_cast
      linear_combination h

theorem xResidSum_formula (xs : List ℚ) :
    ∀ ys : List ℚ, xs.length = ys.length → ∀ s t : ℚ,
      xResidSum xs ys s t = Sxy xs ys - s * Sxx xs - t * xs.sum := by
  induction xs with
  | nil =>
    intro ys hlen s t
    cases ys with
    | nil => simp [xResidSum, Sxy, Sxx]
    | cons y ys => simp at hlen
  | cons x xs ih =>
    intro ys hlen s t
    cases ys with
    | nil => simp at hlen
    | cons y ys =>
      have hlen' : xs.length = ys.length := by simpa using hlen
      have h := ih ys hlen' s t
      simp only [xResidSum, Sxy, Sxx, List.zipWith_cons_cons, List.map_cons,
        List.sum_cons] at h ⊢
      linear_combination h

theorem fit_residSum_eq_zero (xs ys : List ℚ) (hlen : xs.length = ys.length)
    (hn : (xs.length : ℚ) ≠ 0) :
    residSum xs ys (fitSlope xs ys) (fitIntercept xs ys) = 0 := by
  rw [residSum_formula xs ys hlen, fitIntercept]
  field_simp

theorem fit_xResidSum_eq_zero (xs ys : List ℚ) (hlen : xs.length = ys.length)
    (hn : (xs.length : ℚ) ≠ 0)
    (hd : (xs.length : ℚ) * Sxx xs - xs.sum * xs.sum ≠ 0) :
    xResidSum xs ys (fitSlope xs ys) (fitIntercept xs ys) = 0 := by
  rw [xResidSum_formula xs ys hlen, fitIntercept, fitSlope]
  field_simp
  ring

/-- The modelled `np.polyfit` coefficients minimize the sum of squared
residuals over all candidate lines, provided the x-values are not all
equal (nonzero normal-equation determinant). -/
theorem polyfit1_optimal (xs ys : List ℚ) (hlen : xs.length = ys.length)
    (hn : (xs.length : ℚ) ≠ 0)
    (hd : (xs.length : ℚ) * Sxx xs - xs.sum * xs.sum ≠ 0) (a b : ℚ) :
    sse xs ys (fitSlope xs ys) (fitIntercept xs ys) ≤ sse xs ys a b := by
  have hdec := sse_decomp xs ys hlen (fitSlope xs ys) (fitIntercept xs ys) a b
  rw [fit_residSum_eq_zero xs ys hlen hn,
    fit_xResidSum_eq_zero xs ys hlen hn hd] at hdec
  have hsq := dsq_nonneg xs (fitSlope xs ys) (fitIntercept xs ys) a b
  linarith

theorem getD_zipWith (f : ℤ → ℤ → ℚ) (as : List ℤ) :
    ∀ (bs : List ℤ) (i : ℕ), i < as.length → i < bs.length →
      (List.zipWith f as bs).getD i 0 = f (as.getD i 0) (bs.getD i 0) := by
  induction as with
  | nil => intro bs i h1 _; simp at h1
  | cons a as ih =>
    intro bs i h1 h2
    cases bs with
    | nil => simp at h2
    | cons b bs =>
      cases i with
      | zero => simp
      | succ n =>
        simp only [List.zipWith_cons_cons, List.getD_cons_succ]
        exact ih bs n (by simpa using h1) (by simpa using h2)

theorem outputFiles_append (xs ys : List Effect) :
    outputFiles (xs ++ ys) = outputFiles xs ++ outputFiles ys :=
  List.filterMap_append xs ys effectFile

theorem outputFiles_eprint_map (f : String → String) (l : List String) :
    outputFiles (l.map (fun s => Effect.eprint (f s))) = [] := by
  induction l with
  | nil => rfl
  | cons x xs ih =>
    simp only [List.map_cons, outputFiles, List.filterMap_cons] at ih ⊢
    exact ih

theorem outputFiles_styleHeader (styles : List String) :
    outputFiles (styleHeader styles) = [] := by
  rw [styleHeader, check_available_styles, style_fallback_prints]
  by_cases h1 : "seaborn-v0_8" ∈ styles
  · rw [if_pos h1]
    simp only [outputFiles_append, List.nil_append]
    rw [show outputFiles [Effect.eprint "Checking matplotlib configuration..."] = [] from rfl]
    rw [show (Effect.eprint "Available matplotlib styles:"
        :: styles.map (fun s => Effect.eprint ("  - " ++ s)))
      = [Effect.eprint "Available matplotlib styles:"]
        ++ styles.map (fun s => Effect.eprint ("  - " ++ s)) from rfl]
    rw [outputFiles_append]
    rw [show outputFiles [Effect.eprint "Available matplotlib styles:"] = [] from rfl]
    rw [outputFiles_eprint_map (fun s => "  - " ++ s) styles]
    rfl
  · rw [if_neg h1]
    by_cases h2 : "seaborn" ∈ styles
    all_goals {
      first | rw [if_pos h2] | rw [if_neg h2]
      simp only [outputFiles_append, List.nil_append]
      rw [show (Effect.eprint "Available matplotlib styles:"
          :: styles.map (fun s => Effect.eprint ("  - " ++ s)))
        = [Effect.eprint "Available matplotlib styles:"]
          ++ styles.map (fun s => Effect.eprint ("  - " ++ s)) from rfl]
      rw [outputFiles_append]
      rw [outputFiles_eprint_map (fun s => "  - " ++ s) styles]
      rfl
    }

theorem sum_range_cast (n : ℕ) :
    (∑ k in Finset.range n, (k : ℚ)) = n * (n - 1) / 2 := by
  induction n with
  | zero => simp
  | succ m ih =>
    rw [Finset.sum_range_succ, ih]
    push_cast
    ring

theorem program_rentals_eq : program_tables.monthly_trends.rentals =
    [874, 779, 897, 1028, 764, 764, 1036, 915, 729, 881, 730, 730,
     836, 513, 541, 715, 648, 847, 663, 588, 1019, 766, 810, 586] := by
  have h : program_tables.monthly_trends.rentals =
      (seed42_normals.map (fun z => truncToInt (800 + 150 * z))) := rfl
  rw [h]
  norm_num [seed42_normals, truncToInt_of_nonneg, Int.floor_eq_iff]

theorem program_revenue_eq : program_tables.monthly_trends.revenue =
    List.replicate 24 5600 := by
  have h : program_tables.monthly_trends.revenue =
      (List.range 24).map (fun _ => truncToInt (5600 + 1050 * 0)) := rfl
  rw [h]
  norm_num [truncToInt_of_nonneg, Int.floor_eq_iff, List.eq_replicate_iff]

/-- C1: For every two runs of the program (any two pre-existing generator
states, under any seeding semantics of the random library), the dataset
builder produces the same tables, and in particular an identical
MonthlyTrend table: reseeding with the fixed seed 42 makes the draw a
function of the seed alone, so the builder is input-free and repeated runs
reproduce exactly the same numeric values. -/
theorem C1_monthly_trend_deterministic :
    ∀ (seedStream : ℕ → ℕ → ℚ) (r1 r2 : NpRandom),
      (setup_sample_data seedStream r1).monthly_trends
        = (setup_sample_data seedStream r2).monthly_trends
      ∧ setup_sample_data seedStream r1 = setup_sample_data seedStream r2 :=
  fun _ _ _ => ⟨rfl, rfl⟩

/-- C2: After the dataset builder runs (for any seeding semantics and any
starting generator state), the five tables have exactly the documented row
counts: CountryKPI 7, GenrePerformance 7, CustomerSegment 4, MonthlyTrend
24 (one per month from Jan-2018 through Dec-2019), ActorAnalysis 6. -/
theorem C2_row_counts :
    ∀ (ss : ℕ → ℕ → ℚ) (r : NpRandom),
      (setup_sample_data ss r).country_kpis.country.length = 7
      ∧ (setup_sample_data ss r).genre_performance.genre.length = 7
      ∧ (setup_sample_data ss r).customer_segments.segment.length = 4
      ∧ (setup_sample_data ss r).monthly_trends.month.length = 24
      ∧ (setup_sample_data ss r).monthly_trends.rentals.length = 24
      ∧ (setup_sample_data ss r).monthly_trends.revenue.length = 24
      ∧ (setup_sample_data ss r).monthly_trends.new_customers.length = 24
      ∧ (setup_sample_data ss r).actor_analysis.nationality.length = 6
      ∧ (setup_sample_data ss r).monthly_trends.month =
          [(2018, 1), (2018, 2), (2018, 3), (2018, 4), (2018, 5), (2018, 6),
           (2018, 7), (2018, 8), (2018, 9), (2018, 10), (2018, 11), (2018, 12),
           (2019, 1), (2019, 2), (2019, 3), (2019, 4), (2019, 5), (2019, 6),
           (2019, 7), (2019, 8), (2019, 9), (2019, 10), (2019, 11), (2019, 12)] :=
  fun _ _ => ⟨rfl, rfl, rfl, rfl, rfl, rfl, rfl, rfl, rfl⟩

/-- C8: Every report generator (the four static ones and the interactive
one) leaves the five shared tables unchanged, and the orchestrator's trace
is exactly the concatenation of each generator's output computed on the
tables built at startup: generators only read shared state and no
generator's output depends on another generator having run. -/
theorem C8_generators_read_only :
    ∀ t : Tables,
      (create_country_performance_dashboard t).1 = t
      ∧ (create_genre_analysis t).1 = t
      ∧ (create_customer_segmentation_viz t).1 = t
      ∧ (create_temporal_analysis t).1 = t
      ∧ (create_interactive_dashboard t).1 = t
      ∧ (generate_all_visualizations t).1 = t
      ∧ (generate_all_visualizations t).2 =
          [Effect.eprint "Generating MovieNow Business Intelligence Visualizations...",
           Effect.eprint "1. Creating Country Performance Dashboard..."]
          ++ (create_country_performance_dashboard t).2
          ++ [Effect.eprint "2. Creating Genre Analysis..."]
          ++ (create_genre_analysis t).2
          ++ [Effect.eprint "3. Creating Customer Segmentation..."]
          ++ (create_customer_segmentation_viz t).2
          ++ [Effect.eprint "4. Creating Temporal Analysis..."]
          ++ (create_temporal_analysis t).2
          ++ [Effect.eprint "5. Creating Interactive Dashboard..."]
          ++ (create_interactive_dashboard t).2
          ++ [Effect.eprint "\nAll visualizations generated successfully!",
              Effect.eprint "Files saved in 'visualizations/' directory:",
              Effect.eprint "- country_performance_dashboard.png",
              Effect.eprint "- genre_analysis.png",
              Effect.eprint "- customer_segmentation.png",
              Effect.eprint "- temporal_analysis.png",
              Effect.eprint "- interactive_dashboard.html"] :=
  fun _ => ⟨rfl, rfl, rfl, rfl, rfl, rfl, rfl⟩

/-- C9: The ActorAnalysis table is unused by every generator: replacing it
by any two values leaves the output of each report generator (static and
interactive) and of the whole orchestrator identical. -/
theorem C9_actor_analysis_unused :
    ∀ (t : Tables) (a1 a2 : ActorAnalysis),
      (create_country_performance_dashboard { t with actor_analysis := a1 }).2
        = (create_country_performance_dashboard { t with actor_analysis := a2 }).2
      ∧ (create_genre_analysis { t with actor_analysis := a1 }).2
        = (create_genre_analysis { t with actor_analysis := a2 }).2
      ∧ (create_customer_segmentation_viz { t with actor_analysis := a1 }).2
        = (create_customer_segmentation_viz { t with actor_analysis := a2 }).2
      ∧ (create_temporal_analysis { t with actor_analysis := a1 }).2
        = (create_temporal_analysis { t with actor_analysis := a2 }).2
      ∧ (create_interactive_dashboard { t with actor_analysis := a1 }).2
        = (create_interactive_dashboard { t with actor_analysis := a2 }).2
      ∧ (generate_all_visualizations { t with actor_analysis := a1 }).2
        = (generate_all_visualizations { t with actor_analysis := a2 }).2 :=
  fun _ _ _ => ⟨rfl, rfl, rfl, rfl, rfl, rfl⟩

/-- C6: For every month of the MonthlyTrend table (any seeding semantics,
any starting generator state), the revenue-per-rental series computed by
the temporal report generator equals that month's revenue divided by that
month's rentals, exactly as a ratio of the two stored integer columns; the
program applies no rounding. -/
theorem C6_revenue_per_rental_exact :
    ∀ (ss : ℕ → ℕ → ℚ) (r : NpRandom) (i : ℕ), i < 24 →
      (revenue_per_rental (setup_sample_data ss r).monthly_trends).getD i 0
        = ((setup_sample_data ss r).monthly_trends.revenue.getD i 0 : ℚ)
          / ((setup_sample_data ss r).monthly_trends.rentals.getD i 0 : ℚ) := by
  intro ss r i hi
  have h1 : i < (setup_sample_data ss r).monthly_trends.revenue.length := by
    rw [show (setup_sample_data ss r).monthly_trends.revenue.length = 24 from rfl]
    exact hi
  have h2 : i < (setup_sample_data ss r).monthly_trends.rentals.length := by
    rw [show (setup_sample_data ss r).monthly_trends.rentals.length = 24 from rfl]
    exact hi
  exact getD_zipWith (fun rev ren => (rev : ℚ) / (ren : ℚ)) _ _ i h1 h2

theorem C6_revenue_per_rental_exact_witness :
    0 < 24
    ∧ (revenue_per_rental (setup_sample_data (fun _ _ => 0)
          { stream := fun _ => 0, pos := 0 }).monthly_trends).getD 0 0
        = ((setup_sample_data (fun _ _ => 0)
              { stream := fun _ => 0, pos := 0 }).monthly_trends.revenue.getD 0 0 : ℚ)
          / ((setup_sample_data (fun _ _ => 0)
              { stream := fun _ => 0, pos := 0 }).monthly_trends.rentals.getD 0 0 : ℚ) :=
  ⟨by decide,
   C6_revenue_per_rental_exact (fun _ _ => 0) { stream := fun _ => 0, pos := 0 } 0 (by decide)⟩

/-- C10: With the fixed seed 42 (the modelled seeded draw of the library),
every value of the MonthlyTrend rentals column is a nonzero integer, and
for every month the revenue-per-rental ratio times the rentals value
recovers the revenue value exactly: the elementwise division is
well-defined for all 24 months and no division by zero occurs. -/
theorem C10_rentals_nonzero_division_defined :
    (∀ x ∈ program_tables.monthly_trends.rentals, x ≠ 0)
    ∧ (∀ i : ℕ, i < 24 →
        (revenue_per_rental program_tables.monthly_trends).getD i 0
          * (program_tables.monthly_trends.rentals.getD i 0 : ℚ)
        = (program_tables.monthly_trends.revenue.getD i 0 : ℚ)) := by
  have hall : ∀ x ∈ program_tables.monthly_trends.rentals, x ≠ 0 := by
    rw [program_rentals_eq]
    decide
  refine ⟨hall, ?_⟩
  intro i hi
  have h1 : i < program_tables.monthly_trends.revenue.length := by
    rw [show program_tables.monthly_trends.revenue.length = 24 from rfl]
    exact hi
  have h2 : i < program_tables.monthly_trends.rentals.length := by
    rw [show program_tables.monthly_trends.rentals.length = 24 from rfl]
    exact hi
  have hz := getD_zipWith (fun rev ren => (rev : ℚ) / (ren : ℚ))
    program_tables.monthly_trends.revenue program_tables.monthly_trends.rentals i h1 h2
  rw [revenue_per_rental, hz]
  have hmem : program_tables.monthly_trends.rentals.getD i 0
      ∈ program_tables.monthly_trends.rentals := by
    rw [List.getD_eq_getElem _ _ h2]
    exact List.getElem_mem h2
  have hne : program_tables.monthly_trends.rentals.getD i 0 ≠ 0 :=
    hall _ hmem
  have hne' : (program_tables.monthly_trends.rentals.getD i 0 : ℚ) ≠ 0 :=
    Int.cast_ne_zero.2 hne
  exact div_mul_cancel₀ _ hne'

theorem C10_rentals_nonzero_division_defined_witness :
    (874 : ℤ) ∈ program_tables.monthly_trends.rentals ∧ (874 : ℤ) ≠ 0 :=
  ⟨by rw [program_rentals_eq]; decide,
   C10_rentals_nonzero_division_defined.1 874 (by rw [program_rentals_eq]; decide)⟩

/-- C4: For every column of the country performance matrix the values are
not all equal, and for every column (of any table) that is not all equal,
the min-max normalization of line 137 maps the column minimum to 0 and the
column maximum to 1 with every normalized value in [0, 1]; when all values
of a column are equal, the computation divides by zero (its denominator
`max - min` is 0, the unhandled degenerate case). -/
theorem C4_minmax_normalization :
    ∀ (ss : ℕ → ℕ → ℚ) (r : NpRandom),
      (∀ col ∈ performance_matrix_cols (setup_sample_data ss r), ¬ allEqual col)
      ∧ (∀ col : List ℚ, col ≠ [] → ¬ allEqual col →
          normalizedVal col (colMin col) = 0
          ∧ normalizedVal col (colMax col) = 1
          ∧ ∀ x ∈ col, 0 ≤ normalizedVal col x ∧ normalizedVal col x ≤ 1)
      ∧ (∀ col : List ℚ, allEqual col → colMax col - colMin col = 0) := by
  intro ss r
  refine ⟨?_, ?_, ?_⟩
  · intro col hcol
    rw [show performance_matrix_cols (setup_sample_data ss r)
        = [[(1250 : ℚ), 890, 720, 650, 580, 320, 420],
           [7.2, 7.8, 7.5, 7.1, 7.9, 8.1, 7.3],
           [8750, 6230, 5040, 4550, 4060, 2240, 2940]] from rfl] at hcol
    simp only [List.mem_cons, List.not_mem_nil, or_false] at hcol
    rcases hcol with h | h | h
    · subst h
      intro hall
      have h1 := hall 1250 (by norm_num) 890 (by norm_num)
      norm_num at h1
    · subst h
      intro hall
      have h1 := hall 7.2 (by norm_num) 7.8 (by norm_num)
      norm_num at h1
    · subst h
      intro hall
      have h1 := hall 8750 (by norm_num) 6230 (by norm_num)
      norm_num at h1
  · intro col hne hneq
    have hm : colMin col < colMax col := by
      rcases lt_or_ge (colMin col) (colMax col) with h | h
      · exact h
      · exfalso
        apply hneq
        intro x hx y hy
        have e1 : colMin col = x :=
          le_antisymm (colMin_le_of_mem col x hx)
            (le_trans (le_colMax_of_mem col x hx) h)
        have e2 : colMin col = y :=
          le_antisymm (colMin_le_of_mem col y hy)
            (le_trans (le_colMax_of_mem col y hy) h)
        rw [← e1, ← e2]
    have hpos : 0 < colMax col - colMin col := sub_pos.2 hm
    refine ⟨?_, ?_, ?_⟩
    · rw [normalizedVal, sub_self, zero_div]
    · rw [normalizedVal]
      exact div_self (ne_of_gt hpos)
    · intro x hx
      constructor
      · exact div_nonneg (sub_nonneg.2 (colMin_le_of_mem col x hx)) hpos.le
      · rw [normalizedVal, div_le_one hpos]
        exact sub_le_sub_right (le_colMax_of_mem col x hx) _
  · intro col hall
    cases col with
    | nil => rw [colMax, colMin, sub_self]
    | cons y ys =>
      have h1 := colMax_mem (y :: ys) (by simp)
      have h2 := colMin_mem (y :: ys) (by simp)
      rw [hall _ h1 _ h2, sub_self]

theorem C4_minmax_normalization_witness :
    ([(1 : ℚ), 2] ≠ [] ∧ ¬ allEqual [(1 : ℚ), 2])
    ∧ normalizedVal [(1 : ℚ), 2] (colMin [(1 : ℚ), 2]) = 0 :=
  ⟨⟨by simp, by intro h; have := h 1 (by simp) 2 (by simp); norm_num at this⟩,
   ((C4_minmax_normalization (fun _ _ => 0) { stream := fun _ => 0, pos := 0 }).2.1
      [(1 : ℚ), 2] (by simp)
      (by intro h; have := h 1 (by simp) 2 (by simp); norm_num at this)).1⟩

/-- C5: For every column of the concrete genre metrics table, the
descending ranks of line 191 form a permutation of 1..N; and in general
every value receives the average of the block of ranks its tied group
would occupy (the tie-averaging policy of the library default). -/
theorem C5_rank_permutation :
    ∀ (ss : ℕ → ℕ → ℚ) (r : NpRandom),
      (∀ col ∈ genre_metrics_cols (setup_sample_data ss r),
        (rankings col).Perm ((List.range col.length).map (fun k => ((k : ℚ) + 1))))
      ∧ (∀ (col : List ℚ) (x : ℚ), x ∈ col →
          rankOf col x =
            (∑ k in Finset.range (col.countP (fun y => decide (y = x))),
              ((col.countP (fun y => decide (x < y)) : ℚ) + (k : ℚ) + 1))
            / (col.countP (fun y => decide (y = x)) : ℚ)) := by
  intro ss r
  constructor
  · intro col hcol
    rw [show genre_metrics_cols (setup_sample_data ss r)
        = [[(8.1 : ℚ), 7.3, 6.9, 6.2, 7.8, 7.1, 7.5],
           [980, 1200, 1100, 450, 680, 720, 380],
           [4.50, 3.80, 4.20, 3.50, 4.10, 4.00, 4.80]] from rfl] at hcol
    simp only [List.mem_cons, List.not_mem_nil, or_false] at hcol
    have hrange : (List.range 7).map (fun k => ((k : ℚ) + 1))
        = [1, 2, 3, 4, 5, 6, 7] := by
      norm_num [List.range_succ]
    rcases hcol with h | h | h
    · subst h
      rw [show rankings [(8.1 : ℚ), 7.3, 6.9, 6.2, 7.8, 7.1, 7.5]
          = [1, 4, 6, 7, 2, 5, 3] from by
        norm_num [rankings, rankOf, List.countP_cons, List.countP_nil]]
      rw [show ([(8.1 : ℚ), 7.3, 6.9, 6.2, 7.8, 7.1, 7.5] : List ℚ).length = 7 from rfl,
        hrange]
      decide
    · subst h
      rw [show rankings [(980 : ℚ), 1200, 1100, 450, 680, 720, 380]
          = [3, 1, 2, 6, 5, 4, 7] from by
        norm_num [rankings, rankOf, List.countP_cons, List.countP_nil]]
      rw [show ([(980 : ℚ), 1200, 1100, 450, 680, 720, 380] : List ℚ).length = 7 from rfl,
        hrange]
      decide
    · subst h
      rw [show rankings [(4.50 : ℚ), 3.80, 4.20, 3.50, 4.10, 4.00, 4.80]
          = [2, 6, 3, 7, 4, 5, 1] from by
        norm_num [rankings, rankOf, List.countP_cons, List.countP_nil]]
      rw [show ([(4.50 : ℚ), 3.80, 4.20, 3.50, 4.10, 4.00, 4.80] : List ℚ).length = 7 from rfl,
        hrange]
      decide
  · intro col x hx
    have he : 0 < col.countP (fun y => decide (y = x)) :=
      List.countP_pos_iff.2 ⟨x, hx, by simp⟩
    have heQ : ((col.countP (fun y => decide (y = x)) : ℚ)) ≠ 0 := by
      exact_mod_cast Nat.pos_iff_ne_zero.1 he
    have hsplit : ∀ (n : ℕ) (c : ℚ),
        (∑ k in Finset.range n, (c + (k : ℚ) + 1))
          = (∑ k in Finset.range n, (k : ℚ)) + n * (c + 1) := by
      intro n c
      induction n with
      | zero => simp
      | succ m ih =>
        rw [Finset.sum_range_succ, Finset.sum_range_succ, ih]
        push_cast
        ring
    rw [rankOf, hsplit, sum_range_cast]
    field_simp
    ring

set_option maxHeartbeats 800000 in
/-- C7 (amended): Both trend lines computed by the report generators are
degree-1 least-squares fits: their coefficients minimize the sum of
squared residuals over all candidate lines.  The temporal trend line fits
the rentals series against the evenly spaced index 0..N-1; the genre trend
line fits avg_rating against the avg_price column (not an evenly spaced
index, see the counterexample). -/
theorem C7_least_squares_trend_lines :
    ∀ (ss : ℕ → ℕ → ℚ) (r : NpRandom) (a b : ℚ),
      sse (x_numeric (setup_sample_data ss r))
          ((setup_sample_data ss r).monthly_trends.rentals.map Int.cast)
          (temporal_trend_z (setup_sample_data ss r)).1
          (temporal_trend_z (setup_sample_data ss r)).2
        ≤ sse (x_numeric (setup_sample_data ss r))
            ((setup_sample_data ss r).monthly_trends.rentals.map Int.cast) a b
      ∧ sse (genre_trend_x (setup_sample_data ss r))
          (setup_sample_data ss r).genre_performance.avg_rating
          (genre_trend_z (setup_sample_data ss r)).1
          (genre_trend_z (setup_sample_data ss r)).2
        ≤ sse (genre_trend_x (setup_sample_data ss r))
            (setup_sample_data ss r).genre_performance.avg_rating a b
      ∧ evenlySpaced (x_numeric (setup_sample_data ss r)) := by
  intro ss r a b
  have hx : x_numeric (setup_sample_data ss r)
      = [0, 1, 2, 3, 4, 5, 6, 7, 8, 9, 10, 11, 12,
         13, 14, 15, 16, 17, 18, 19, 20, 21, 22, 23] := by
    rw [show x_numeric (setup_sample_data ss r)
        = ([0, 1, 2, 3, 4, 5, 6, 7, 8, 9, 10, 11, 12, 13, 14, 15, 16, 17,
            18, 19, 20, 21, 22, 23] : List ℕ).map (fun k => (k : ℚ)) from rfl]
    norm_num
  have hlen1 : (x_numeric (setup_sample_data ss r)).length
      = ((setup_sample_data ss r).monthly_trends.rentals.map Int.cast).length := rfl
  have hn1 : ((x_numeric (setup_sample_data ss r)).length : ℚ) ≠ 0 := by
    rw [show (x_numeric (setup_sample_data ss r)).length = 24 from rfl]
    norm_num
  have hd1 : ((x_numeric (setup_sample_data ss r)).length : ℚ)
        * Sxx (x_numeric (setup_sample_data ss r))
      - (x_numeric (setup_sample_data ss r)).sum
        * (x_numeric (setup_sample_data ss r)).sum ≠ 0 := by
    rw [show (x_numeric (setup_sample_data ss r)).length = 24 from rfl, hx]
    norm_num [Sxx, List.sum_cons]
  have hlen2 : (genre_trend_x (setup_sample_data ss r)).length
      = (setup_sample_data ss r).genre_performance.avg_rating.length := rfl
  have hn2 : ((genre_trend_x (setup_sample_data ss r)).length : ℚ) ≠ 0 := by
    rw [show (genre_trend_x (setup_sample_data ss r)).length = 7 from rfl]
    norm_num
  have hd2 : ((genre_trend_x (setup_sample_data ss r)).length : ℚ)
        * Sxx (genre_trend_x (setup_sample_data ss r))
      - (genre_trend_x (setup_sample_data ss r)).sum
        * (genre_trend_x (setup_sample_data ss r)).sum ≠ 0 := by
    rw [show (genre_trend_x (setup_sample_data ss r)).length = 7 from rfl,
      show genre_trend_x (setup_sample_data ss r)
        = [(4.50 : ℚ), 3.80, 4.20, 3.50, 4.10, 4.00, 4.80] from rfl]
    norm_num [Sxx, List.sum_cons]
  refine ⟨polyfit1_optimal _ _ hlen1 hn1 hd1 a b,
    polyfit1_optimal _ _ hlen2 hn2 hd2 a b, ?_⟩
  rw [hx]
  intro i hi
  simp only [List.length_cons, List.length_nil] at hi
  interval_cases i <;> norm_num

/-- C7 counterexample: the x-series of the genre trend line (line 185) is
the avg_price column, which is not evenly spaced, refuting the claim that
every trend line is fit over an evenly spaced index. -/
theorem C7_genre_x_not_evenly_spaced :
    ¬ evenlySpaced (genre_trend_x program_tables) := by
  rw [show genre_trend_x program_tables
      = [(4.50 : ℚ), 3.80, 4.20, 3.50, 4.10, 4.00, 4.80] from rfl]
  intro h
  have h1 := h 1 (by norm_num)
  norm_num at h1

theorem C5_rank_permutation_witness :
    (1 : ℚ) ∈ [(1 : ℚ), 1]
    ∧ rankOf [(1 : ℚ), 1] 1 =
        (∑ k in Finset.range (([(1 : ℚ), 1]).countP (fun y => decide (y = 1))),
          ((([(1 : ℚ), 1]).countP (fun y => decide ((1 : ℚ) < y)) : ℚ) + (k : ℚ) + 1))
        / (([(1 : ℚ), 1]).countP (fun y => decide (y = 1)) : ℚ) :=
  ⟨by norm_num,
   (C5_rank_permutation (fun _ _ => 0) { stream := fun _ => 0, pos := 0 }).2
     [(1 : ℚ), 1] 1 (by norm_num)⟩

/-- C3: For any style environment, any seeding semantics and any starting
generator state, a full run writes exactly the five documented files under
the output directory (in order), and the closing status line
`"All visualizations generated successfully!"` is followed only by the
file listing and the summary block: no further file writes and no
non-print effects occur after it. -/
theorem C3_end_to_end_outputs :
    ∀ (styles : List String) (ss : ℕ → ℕ → ℚ) (r : NpRandom),
      mainRun styles ss r
        = styleHeader styles
          ++ Effect.mkdirIfAbsent "visualizations"
            :: (pre_success_trace (setup_sample_data ss r)
               ++ Effect.eprint "\nAll visualizations generated successfully!"
                 :: after_success_trace)
      ∧ outputFiles (mainRun styles ss r) = fivePaths
      ∧ outputFiles after_success_trace = []
      ∧ (∀ e ∈ after_success_trace, isEprint e = true) := by
  intro styles ss r
  have h1 : mainRun styles ss r
      = styleHeader styles
        ++ Effect.mkdirIfAbsent "visualizations"
          :: (pre_success_trace (setup_sample_data ss r)
             ++ Effect.eprint "\nAll visualizations generated successfully!"
               :: after_success_trace) := by
    simp only [mainRun]
    rw [show (setup_sample_data ss r).country_kpis.country.length = 7 from rfl,
      show (setup_sample_data ss r).genre_performance.genre.length = 7 from rfl,
      show (setup_sample_data ss r).customer_segments.segment.length = 4 from rfl,
      show (setup_sample_data ss r).monthly_trends.month.length = 24 from rfl]
    rfl
  refine ⟨h1, ?_, rfl, by decide⟩
  rw [h1, outputFiles_append, outputFiles_styleHeader]
  rfl

theorem C3_end_to_end_outputs_witness :
    Effect.eprint "Files saved in 'visualizations/' directory:" ∈ after_success_trace
    ∧ isEprint (Effect.eprint "Files saved in 'visualizations/' directory:") = true :=
  ⟨by decide,
   (C3_end_to_end_outputs [] (fun _ _ => 0) { stream := fun _ => 0, pos := 0 }).2.2.2
     _ (by decide)⟩
